import Mathlib

/-!
Verification of the resource-object layer of pykube (`pykube/objects.py`):
a shallow embedding of the JSON-like document model, the instance state
(`obj` / `_original_obj`), the request construction in `api_kwargs`, the
CRUD operations, the scaling loops and `Pod.execute`, together with
theorems about the properties the module is expected to satisfy.

The transport collaborator (`HTTPClient` with its `get`/`post`/`patch`/
`delete` and `raise_for_status`), the JSON (de)serialization primitives and
the `jsonpatch` diff library are outside this module; they are modelled
from the specification, as scripted responses and explicitly marked
definitions.
-/

namespace Pykube

/-- JSON-like document trees: the values held in `self.obj` and
`self._original_obj` (Python dicts, lists and scalars). Object fields keep
their insertion order, as Python dicts do. -/
inductive Json where
  | null
  | bool (b : Bool)
  | num (n : Int)
  | str (s : String)
  | arr (elems : List Json)
  | obj (fields : List (String × Json))

mutual
/-- Structural equality of JSON-like values, embedding Python `==` on the
dict/list/scalar trees the module compares. -/
def jsonBeq : Json → Json → Bool
  | .null, .null => true
  | .bool a, .bool b => a == b
  | .num a, .num b => a == b
  | .str a, .str b => a == b
  | .arr xs, .arr ys => jsonBeqList xs ys
  | .obj fs, .obj gs => jsonBeqFields fs gs
  | _, _ => false

/-- Elementwise structural equality of JSON lists. -/
def jsonBeqList : List Json → List Json → Bool
  | [], [] => true
  | x :: xs, y :: ys => jsonBeq x y && jsonBeqList xs ys
  | _, _ => false

/-- Bindingwise structural equality of JSON object field lists. -/
def jsonBeqFields : List (String × Json) → List (String × Json) → Bool
  | [], [] => true
  | (k, v) :: fs, (l, w) :: gs => k == l && jsonBeq v w && jsonBeqFields fs gs
  | _, _ => false
end

/-- The Python exceptions and failure conditions the embedded code can
raise. `objectDoesNotExist` embeds `pykube.exceptions.ObjectDoesNotExist`
(modelled from the spec: the `NotFound` condition, raised by
`exists(ensure=True)`); `httpError` embeds the fatal transport error
raised by `raise_for_status` on a non-success HTTP status; `noResponse`
and `fuelOut` are artifacts of the scripted transport and of giving the
unbounded polling loop explicit fuel. -/
inductive PyError where
  | keyError (key : String)
  | typeError (msg : String)
  | valueError (msg : String)
  | attributeError (attr : String)
  | objectDoesNotExist (msg : String)
  | httpError (status : Nat)
  | noResponse
  | fuelOut
deriving DecidableEq

/-- Embeds Python subscription `j[k]`: `KeyError` when the key is absent,
`TypeError` when the value is not a mapping. -/
def getKey (j : Json) (k : String) : Except PyError Json :=
  match j with
  | .obj fields =>
    match fields.lookup k with
    | some v => .ok v
    | none => .error (.keyError k)
  | _ => .error (.typeError "object is not subscriptable")

/-- Embeds Python `j.get(k)` on a mapping: `none` when absent, no error. -/
def dictGet (j : Json) (k : String) : Except PyError (Option Json) :=
  match j with
  | .obj fields => .ok (fields.lookup k)
  | _ => .error (.attributeError "get")

/-- Replaces the value of key `k` in an ordered field list, appending the
binding at the end when the key is new — Python dict item assignment. -/
def setEntry (fields : List (String × Json)) (k : String) (v : Json) :
    List (String × Json) :=
  match fields with
  | [] => [(k, v)]
  | (k0, v0) :: rest =>
    if k0 = k then (k0, v) :: rest else (k0, v0) :: setEntry rest k v

/-- Embeds Python item assignment `j[k] = v` on a mapping. -/
def setKey (j : Json) (k : String) (v : Json) : Except PyError Json :=
  match j with
  | .obj fields => .ok (.obj (setEntry fields k v))
  | _ => .error (.typeError "object does not support item assignment")

/-- Python truthiness of a JSON-like value (`if x:`). -/
def truthy : Json → Bool
  | .null => false
  | .bool b => b
  | .num n => n != 0
  | .str s => s != ""
  | .arr xs => !xs.isEmpty
  | .obj fs => !fs.isEmpty

/-- A single quote character, used by the Python `repr` rendering. -/
def squote : String := String.singleton (Char.ofNat 39)

mutual
/-- Models Python `repr()` on JSON-like values, used by `str()` on
containers. String escaping inside `repr` is elided: the embedded claims
only exercise scalar and quote-free string values. -/
def pyRepr : Json → String
  | .null => "None"
  | .bool true => "True"
  | .bool false => "False"
  | .num n => toString n
  | .str s => squote ++ s ++ squote
  | .arr xs => "[" ++ ", ".intercalate (pyReprList xs) ++ "]"
  | .obj fs => "\x7b" ++ ", ".intercalate (pyReprFields fs) ++ "\x7d"

/-- Renders each element of a list with `pyRepr`. -/
def pyReprList : List Json → List String
  | [] => []
  | x :: xs => pyRepr x :: pyReprList xs

/-- Renders each binding of a field list with `pyRepr`. -/
def pyReprFields : List (String × Json) → List String
  | [] => []
  | (k, v) :: fs => (squote ++ k ++ squote ++ ": " ++ pyRepr v) :: pyReprFields fs
end

/-- Models Python `str()` on JSON-like values: a string passes through
verbatim (the case the code exercises for names and flags), other values
use their Python literal rendering. -/
def pyStr : Json → String
  | .str s => s
  | v => pyRepr v

/-- Models the Python string method `lower()`, written over the character
list so that it evaluates inside proofs. -/
def pyLower (s : String) : String := String.mk (s.data.map Char.toLower)

mutual
/-- Models `json.dumps` (an external serialization primitive) with its
default separators. String escaping is elided: the embedded claims only
exercise quote-free strings. -/
def jsonDumps : Json → String
  | .null => "null"
  | .bool true => "true"
  | .bool false => "false"
  | .num n => toString n
  | .str s => "\"" ++ s ++ "\""
  | .arr xs => "[" ++ ", ".intercalate (jsonDumpsList xs) ++ "]"
  | .obj fs => "\x7b" ++ ", ".intercalate (jsonDumpsFields fs) ++ "\x7d"

/-- Serializes each element of a list with `jsonDumps`. -/
def jsonDumpsList : List Json → List String
  | [] => []
  | x :: xs => jsonDumps x :: jsonDumpsList xs

/-- Serializes each binding of a field list with `jsonDumps`. -/
def jsonDumpsFields : List (String × Json) → List String
  | [] => []
  | (k, v) :: fs => ("\"" ++ k ++ "\": " ++ jsonDumps v) :: jsonDumpsFields fs
end

/-- A JSON-Patch operation (add / remove / replace addressed by path), the
elements of the edit script produced by the diff primitive. -/
inductive PatchOp where
  | add (path : String) (value : Json)
  | remove (path : String)
  | replace (path : String) (value : Json)

/-- Modelled from the spec: the structural diff primitive
(`jsonpatch.make_patch`, an external library consumed as a black box).
The spec requires of it only that it is deterministic, that applying its
result to `old` reproduces `new`, and that `diff(X, X)` is the empty
operation sequence; this model returns the empty script when the
documents are structurally equal and a whole-document replacement
otherwise, which satisfies those laws. -/
def make_patch (old new : Json) : List PatchOp :=
  if jsonBeq old new then [] else [.replace "" new]

/-- Renders one patch operation as its JSON object, as
`jsonpatch.JsonPatch` serializes it. -/
def patchOpJson : PatchOp → Json
  | .add p v => .obj [("op", .str "add"), ("path", .str p), ("value", v)]
  | .remove p => .obj [("op", .str "remove"), ("path", .str p)]
  | .replace p v => .obj [("op", .str "replace"), ("path", .str p), ("value", v)]

/-- Models `str(patch)` on a `jsonpatch.JsonPatch`: the JSON text of the
operation list (`str([])` of an empty patch is `"[]"`). -/
def patchToString (ops : List PatchOp) : String :=
  jsonDumps (.arr (ops.map patchOpJson))

/-- The default namespace string (`objects.py` line 12). -/
def DEFAULT_NAMESPACE : String := "default"

/-- Static per-kind metadata: the class attributes `version`, `endpoint`,
`kind` and `base` of each `APIObject` subclass, plus whether the class
descends from `NamespacedAPIObject` (which decides the `namespace`
attribute seen by `api_kwargs`). -/
structure Desc where
  version : String
  endpoint : String
  kind : String
  namespaced : Bool
  base : Option String := none

/-- The mutable per-instance state: `self.obj` (the caller-mutable
document) and `self._original_obj` (the snapshot, a deep copy taken by
`set_obj`). -/
structure Inst where
  obj : Json
  orig : Json

/-- Embeds `APIObject.set_obj` (lines 25-27): stores the document and a
deep copy of it as the snapshot; values being immutable here, the deep
copy is the value itself, and the two fields can only diverge by the
caller later replacing `obj`. `APIObject.__init__` is exactly this. -/
def set_obj (o : Json) : Inst := { obj := o, orig := o }

/-- A transport response as the module observes it: status code, the
JSON-decoded body (`none` when the body does not parse), and the raw
body text (`response.text`, read by `Pod.execute`). -/
structure Response where
  status : Nat
  body : Option Json := none
  text : String := ""

/-- Embeds `r.ok` of the transport response: success statuses are those
below 400. -/
def Response.isOk (r : Response) : Bool := r.status < 400

/-- Embeds `r.json()`: the decoded body, or a decode error when the body
is not valid JSON. -/
def Response.json (r : Response) : Except PyError Json :=
  match r.body with
  | some b => .ok b
  | none => .error (.valueError "no JSON object could be decoded")

/-- Modelled from the spec: the transport collaborator's
`raise_for_status`, which "fails loudly on unexpected status codes" — it
raises a fatal transport error exactly on non-success statuses (400 and
above) and is a no-op on success statuses. -/
def raise_for_status (r : Response) : Except PyError Unit :=
  if r.status < 400 then .ok () else .error (.httpError r.status)

/-- The keyword arguments `api_kwargs` assembles for the transport
collaborator: the request skeleton. The HTTP method is attached by the
call site (`api.get` / `api.post` / `api.patch` / `api.delete`). -/
structure Request where
  method : String := ""
  url : String
  base : Option String := none
  version : String := ""
  ns : Option Json := none
  headers : List (String × String) := []
  data : Option String := none

/-- The optional keyword arguments a caller passes into `api_kwargs`. -/
structure KwArgs where
  collection : Bool := false
  subcommand : Option String := none
  query_params : Option (List (String × Json)) := none
  headers : List (String × String) := []
  data : Option String := none

/-- The scripted transport: the responses the fake server will return, in
order, the log of every request issued so far, and how many times the
code has slept (`time.sleep(1)` between poll attempts). -/
structure ApiState where
  pending : List Response
  log : List Request := []
  slept : Nat := 0

/-- The full state a run threads: the instance plus the transport. -/
structure St where
  inst : Inst
  api : ApiState

/-- Lifts a stateless Python-exception computation into a run over `St`:
an uncaught exception propagates and leaves the state as it was. -/
def liftE (st : St) : Except PyError α → Except (PyError × St) α
  | .ok a => .ok a
  | .error e => .error (e, st)

/-- Modelled from the spec: one transport call. The request, with its
method attached, is appended to the log; the next scripted response is
consumed. Running out of scripted responses is an artifact of the model;
theorems always supply enough responses. -/
def send (method : String) (req : Request) (st : St) :
    Except (PyError × St) (Response × St) :=
  let st1 : St :=
    { st with api := { st.api with log := st.api.log ++ [{ req with method := method }] } }
  match st1.api.pending with
  | r :: rest =>
    .ok (r, { st1 with api := { st1.api with pending := rest } })
  | [] => .error (.noResponse, st1)

/-- Embeds the quoting of one character by the urlencode library
primitive (`quote_plus`): unreserved characters pass through, space
becomes `+`, anything else is percent-encoded. -/
def quoteChar (c : Char) : String :=
  if c.isAlphanum || c == Char.ofNat 45 || c == Char.ofNat 95 ||
      c == Char.ofNat 46 || c == Char.ofNat 126 then
    String.singleton c
  else if c == Char.ofNat 32 then "+"
  else
    let hexDigit : Nat → Char := fun n => if n < 10 then Char.ofNat (48 + n) else Char.ofNat (55 + n)
    "%" ++ String.singleton (hexDigit (c.toNat / 16 % 16)) ++
      String.singleton (hexDigit (c.toNat % 16))

/-- Embeds `quote_plus` over a whole string. -/
def quotePlus (s : String) : String := String.join (s.data.map quoteChar)

/-- Modelled from the spec: the library `urlencode` — each pair rendered
as `key=str(value)` with both sides quoted, pairs joined with `&`, keys
in the order supplied. -/
def urlencode (params : List (String × Json)) : String :=
  "&".intercalate
    (params.map (fun kv => quotePlus kv.fst ++ "=" ++ quotePlus (pyStr kv.snd)))

/-- Embeds the url construction of `api_kwargs` (lines 38-43 and 50-57):
the collection endpoint, or the singular target built from the name held
in `_original_obj` (the snapshot), then the optional subcommand segment
and the optional encoded query string. -/
def urlFor (d : Desc) (orig : Json) (kw : KwArgs) : Except PyError String := do
  let url ←
    if kw.collection then Except.ok d.endpoint
    else do
      let md ← getKey orig "metadata"
      let n ← getKey md "name"
      Except.ok (d.endpoint ++ "/" ++ pyStr n)
  let url :=
    match kw.subcommand with
    | some sc => if sc != "" then url ++ "/" ++ sc else url
    | none => url
  let url :=
    match kw.query_params with
    | some qp => if !qp.isEmpty then url ++ "?" ++ urlencode qp else url
    | none => url
  Except.ok url

/-- Embeds `NamespacedAPIObject.namespace` (lines 101-106): the value of
`metadata.namespace` when present and truthy, the default namespace
otherwise. -/
def nsProperty (obj : Json) : Except PyError Json := do
  let md ← getKey obj "metadata"
  let v ← dictGet md "namespace"
  match v with
  | some w => if truthy w then Except.ok w else Except.ok (.str DEFAULT_NAMESPACE)
  | none => Except.ok (.str DEFAULT_NAMESPACE)

/-- The `self.namespace` attribute as `api_kwargs` sees it (line 47): the
class attribute `None` for cluster-scoped kinds, the
`NamespacedAPIObject` property for namespaced kinds. -/
def nsAttr (d : Desc) (obj : Json) : Except PyError (Option Json) :=
  if d.namespaced then do
    let v ← nsProperty obj
    Except.ok (some v)
  else Except.ok none

/-- Embeds `APIObject.api_kwargs` (lines 37-59): assembles the request
skeleton — url (from the snapshot's name), base when the class attribute
is truthy, version, namespace when the attribute is not `None`, then the
remaining keyword arguments (headers, data) merged in. -/
def api_kwargs (d : Desc) (inst : Inst) (kw : KwArgs) : Except PyError Request := do
  let url ← urlFor d inst.orig kw
  let ns ← nsAttr d inst.obj
  Except.ok
    { method := ""
      url := url
      base := match d.base with
        | some b => if b != "" then some b else none
        | none => none
      version := d.version
      ns := ns
      headers := kw.headers
      data := kw.data }

/-- Embeds `APIObject.exists` (lines 61-70): a GET on the singular
target; statuses other than 200 and 404 go through `raise_for_status`;
a non-ok response then either raises `ObjectDoesNotExist` (when `ensure`)
with a message built from the document's name, or returns `False`; an ok
response returns `True`. -/
def existsOp (d : Desc) (ensure : Bool) (st : St) :
    Except (PyError × St) (Bool × St) := do
  let req ← liftE st (api_kwargs d st.inst {})
  let (r, st) ← send "GET" req st
  if r.status == 200 || r.status == 404 then pure () else liftE st (raise_for_status r)
  if !r.isOk then
    if ensure then do
      let md ← liftE st (getKey st.inst.obj "metadata")
      let n ← liftE st (getKey md "name")
      Except.error (.objectDoesNotExist (pyStr n ++ " does not exist."), st)
    else Except.ok (false, st)
  else Except.ok (true, st)

/-- Embeds `APIObject.create` (lines 72-75): a POST on the collection
target with the serialized document as body; `raise_for_status`; then
`set_obj` on the decoded response body. -/
def create (d : Desc) (st : St) : Except (PyError × St) St := do
  let req ← liftE st
    (api_kwargs d st.inst { collection := true, data := some (jsonDumps st.inst.obj) })
  let (r, st) ← send "POST" req st
  liftE st (raise_for_status r)
  let b ← liftE st r.json
  Except.ok { st with inst := set_obj b }

/-- Embeds `APIObject.reload` (lines 77-80): a GET on the singular
target; `raise_for_status`; then `set_obj` on the decoded response
body. -/
def reload (d : Desc) (st : St) : Except (PyError × St) St := do
  let req ← liftE st (api_kwargs d st.inst {})
  let (r, st) ← send "GET" req st
  liftE st (raise_for_status r)
  let b ← liftE st r.json
  Except.ok { st with inst := set_obj b }

/-- Embeds `APIObject.update` (lines 82-89): computes the patch between
the snapshot and the document, issues a PATCH on the singular target with
the JSON-Patch content type and the rendered patch as body — with no
emptiness check on the patch — then `raise_for_status` and `set_obj` on
the decoded response body. -/
def update (d : Desc) (st : St) : Except (PyError × St) St := do
  let patch := make_patch st.inst.orig st.inst.obj
  let req ← liftE st
    (api_kwargs d st.inst
      { headers := [("Content-Type", "application/json-patch+json")]
        data := some (patchToString patch) })
  let (r, st) ← send "PATCH" req st
  liftE st (raise_for_status r)
  let b ← liftE st r.json
  Except.ok { st with inst := set_obj b }

/-- Embeds `APIObject.delete` (lines 91-94): a DELETE on the singular
target; `raise_for_status` unless the status is 404; the instance state
is never touched. -/
def delete (d : Desc) (st : St) : Except (PyError × St) St := do
  let req ← liftE st (api_kwargs d st.inst {})
  let (r, st) ← send "DELETE" req st
  if r.status == 404 then Except.ok st
  else do
    liftE st (raise_for_status r)
    Except.ok st

/-- Embeds the query-parameter construction of `Pod.execute`
(lines 216-227): `command` through `str()`, each of
`stdin`/`stdout`/`stderr` (when supplied) through `str().lower()`, `tty`
and `container` (when supplied) passed through verbatim, keys in the
construction order of the source. -/
def execParams (command : Json)
    (stdin stdout stderr tty container : Option Json) : List (String × Json) :=
  [("command", .str (pyStr command))]
  ++ (match stdin with
      | some v => [("stdin", Json.str (pyLower (pyStr v)))]
      | none => [])
  ++ (match stdout with
      | some v => [("stdout", Json.str (pyLower (pyStr v)))]
      | none => [])
  ++ (match stderr with
      | some v => [("stderr", Json.str (pyLower (pyStr v)))]
      | none => [])
  ++ (match tty with
      | some v => [("tty", v)]
      | none => [])
  ++ (match container with
      | some v => [("container", v)]
      | none => [])

/-- Embeds `Pod.execute` (lines 207-237): builds the query parameters,
issues a GET on the singular target's `exec` subcommand with those
parameters, raises on a non-success status, and returns the raw response
body text. -/
def execute (d : Desc) (command : Json)
    (stdin stdout stderr tty container : Option Json) (st : St) :
    Except (PyError × St) (String × St) := do
  let params := execParams command stdin stdout stderr tty container
  let req ← liftE st
    (api_kwargs d st.inst { subcommand := some "exec", query_params := some params })
  let (r, st) ← send "GET" req st
  liftE st (raise_for_status r)
  Except.ok (r.text, st)

/-- Embeds the `ReplicatedAPIObject.replicas` getter (lines 111-113):
`self.obj["spec"]["replicas"]`. -/
def getReplicas (obj : Json) : Except PyError Json := do
  let sp ← getKey obj "spec"
  getKey sp "replicas"

/-- Embeds the `ReplicatedAPIObject.replicas` setter (lines 115-117):
`self.obj["spec"]["replicas"] = value`. -/
def setReplicas (obj : Json) (v : Json) : Except PyError Json := do
  let sp ← getKey obj "spec"
  let sp ← setKey sp "replicas" v
  setKey obj "spec" sp

/-- Embeds the polling loop of `ReplicationController.scale`
(lines 252-256): reload, compare the freshly loaded `spec.replicas` to
the target, stop on equality, otherwise sleep one unit and poll again.
The source loop is unbounded; the embedding gives it explicit fuel and
reports `fuelOut` when the scripted responses never converge. -/
def rcScaleLoop (d : Desc) (replicas : Json) :
    Nat → St → Except (PyError × St) St
  | 0, st => .error (.fuelOut, st)
  | Nat.succ fuel, st => do
    let st ← reload d st
    let cur ← liftE st (getReplicas st.inst.obj)
    if jsonBeq cur replicas then Except.ok st
    else
      rcScaleLoop d replicas fuel
        { st with api := { st.api with slept := st.api.slept + 1 } }

/-- Embeds `ReplicationController.scale` (lines 246-256): default the
target to the current `replicas` when the argument is omitted, require
remote existence (`exists(ensure=True)`), set the local field, `update`,
then poll until the reloaded value matches. -/
def rcScale (d : Desc) (rq : Option Json) (fuel : Nat) (st : St) :
    Except (PyError × St) St := do
  let replicas ←
    match rq with
    | some v => pure v
    | none => liftE st (getReplicas st.inst.obj)
  let (_, st) ← existsOp d true st
  let obj ← liftE st (setReplicas st.inst.obj replicas)
  let st : St := { st with inst := { st.inst with obj := obj } }
  let st ← update d st
  rcScaleLoop d replicas fuel st

/-- The attribute names resolvable on a `Job` instance: the instance
attributes set by `__init__`/`set_obj` plus everything defined by `Job`,
`NamespacedAPIObject` and `APIObject` (data attributes, properties and
methods). The name `self` is not among them: inside a method, `self` is
a local variable, not an attribute of the object. -/
def jobAttrNames : List String :=
  ["api", "obj", "_original_obj", "objects", "base", "namespace", "name",
   "annotations", "api_kwargs", "set_obj", "exists", "create", "reload",
   "update", "delete", "version", "endpoint", "kind", "scale"]

/-- Embeds the comparison on line 176 of `Job.scale`:
`self.self.obj["spec"]["parallelism"] == parallelism`. Python first
evaluates `self.self`, an attribute lookup of the name `self` on the Job
instance; no such attribute exists, so an `AttributeError` is raised
before anything else is read. The value supplied for the (unreachable)
successful-lookup branch is immaterial. -/
def jobLoopCompare (inst : Inst) (parallelism : Json) : Except PyError Bool := do
  let selfAttr ←
    (if jobAttrNames.contains "self" then Except.ok inst
     else Except.error (.attributeError "self") : Except PyError Inst)
  let sp ← getKey selfAttr.obj "spec"
  let p ← getKey sp "parallelism"
  Except.ok (jsonBeq p parallelism)

/-- Embeds the polling loop of `Job.scale` (lines 174-178): reload, then
evaluate the defective comparison of line 176 (which raises
`AttributeError`), stopping on equality and sleeping one unit otherwise.
The unbounded source loop is given explicit fuel. -/
def jobScaleLoop (d : Desc) (parallelism : Json) :
    Nat → St → Except (PyError × St) St
  | 0, st => .error (.fuelOut, st)
  | Nat.succ fuel, st => do
    let st ← reload d st
    let eq ← liftE st (jobLoopCompare st.inst parallelism)
    if eq then Except.ok st
    else
      jobScaleLoop d parallelism fuel
        { st with api := { st.api with slept := st.api.slept + 1 } }

/-- Embeds `Job.scale` (lines 161-178): default the target parallelism to
the current `spec.parallelism` when the argument is omitted, require
remote existence (`exists(ensure=True)`), set `spec.parallelism`,
`update`, then run the polling loop. -/
def jobScale (d : Desc) (rq : Option Json) (fuel : Nat) (st : St) :
    Except (PyError × St) St := do
  let parallelism ←
    match rq with
    | some v => pure v
    | none =>
      liftE st (do
        let sp ← getKey st.inst.obj "spec"
        getKey sp "parallelism")
  let (_, st) ← existsOp d true st
  let obj ← liftE st (do
    let sp ← getKey st.inst.obj "spec"
    let sp ← setKey sp "parallelism" parallelism
    setKey st.inst.obj "spec" sp)
  let st : St := { st with inst := { st.inst with obj := obj } }
  let st ← update d st
  jobScaleLoop d parallelism fuel st

/-- The classes of the module that matter for method resolution. -/
inductive PyClass where
  | apiObject
  | namespacedAPIObject
  | replicatedAPIObject
  | deployment
  | job
  | pod
  | replicationController
  | replicaSet
deriving DecidableEq

/-- The names defined in each class body (`objects.py`): the class
dictionaries Python consults during attribute resolution. -/
def classDict : PyClass → List String
  | .apiObject =>
    ["objects", "base", "namespace", "name", "annotations", "api_kwargs",
     "set_obj", "exists", "create", "reload", "update", "delete"]
  | .namespacedAPIObject => ["objects", "namespace"]
  | .replicatedAPIObject => ["replicas"]
  | .deployment => ["version", "endpoint", "kind"]
  | .job => ["version", "endpoint", "kind", "scale"]
  | .pod => ["version", "endpoint", "kind", "ready", "execute"]
  | .replicationController => ["version", "endpoint", "kind", "scale"]
  | .replicaSet => ["version", "endpoint", "kind"]

/-- The method resolution order of each concrete class, as Python
linearizes the class hierarchy of the module (`object` omitted: it
defines none of the names of interest). -/
def mro : PyClass → List PyClass
  | .deployment => [.deployment, .namespacedAPIObject, .apiObject, .replicatedAPIObject]
  | .job => [.job, .namespacedAPIObject, .apiObject]
  | .pod => [.pod, .namespacedAPIObject, .apiObject]
  | .replicationController =>
    [.replicationController, .namespacedAPIObject, .apiObject, .replicatedAPIObject]
  | .replicaSet => [.replicaSet, .namespacedAPIObject, .apiObject, .replicatedAPIObject]
  | c => [c]

/-- Embeds Python attribute resolution of a name through a class's MRO:
the first class whose dictionary defines the name, or `none` — an
`AttributeError` at the access site. -/
def resolveAttr (c : PyClass) (m : String) : Option PyClass :=
  (mro c).find? (fun k => (classDict k).contains m)

/-- Embeds the call `instance.scale(rq)` on an instance of class `c` with
descriptor `d`: `ReplicationController` and `Job` define `scale`; for any
class that does not resolve the name, the call site raises
`AttributeError` before any request is issued. -/
def scaleDispatch (c : PyClass) (d : Desc) (rq : Option Json) (fuel : Nat)
    (st : St) : Except (PyError × St) St :=
  match resolveAttr c "scale" with
  | some .replicationController => rcScale d rq fuel st
  | some .job => jobScale d rq fuel st
  | _ => .error (.attributeError "scale", st)

/-- The `Deployment` class attributes (lines 134-138). -/
def deploymentDesc : Desc :=
  { version := "extensions/v1beta1", endpoint := "deployments",
    kind := "Deployment", namespaced := true }

/-- The `Job` class attributes (lines 155-159). -/
def jobDesc : Desc :=
  { version := "batch/v1", endpoint := "jobs", kind := "Job", namespaced := true }

/-- The `Pod` class attributes (lines 195-199). -/
def podDesc : Desc :=
  { version := "v1", endpoint := "pods", kind := "Pod", namespaced := true }

/-- The `ReplicationController` class attributes (lines 240-244). -/
def rcDesc : Desc :=
  { version := "v1", endpoint := "replicationcontrollers",
    kind := "ReplicationController", namespaced := true }

/-- The error a run raised, when it failed. -/
def errOf {α : Type} : Except (PyError × St) α → Option PyError
  | .ok _ => none
  | .error (e, _) => some e

/-- The state at the moment a run failed. -/
def errStOf {α : Type} : Except (PyError × St) α → Option St
  | .ok _ => none
  | .error (_, s) => some s

/-- The final state of a successful state-returning run. -/
def okSt : Except (PyError × St) St → Option St
  | .ok s => some s
  | .error _ => none

/-- The transport state every operation leaves behind, as a function of
the assembled request skeleton and the initial transport state: nothing
when the skeleton could not be assembled, otherwise the request is
logged with its method and the next scripted response consumed. -/
def apiAfter (kwE : Except PyError Request) (method : String)
    (api : ApiState) : ApiState :=
  match kwE with
  | .error _ => api
  | .ok req =>
    let api1 : ApiState := { api with log := api.log ++ [{ req with method := method }] }
    match api1.pending with
    | _ :: rest => { api1 with pending := rest }
    | [] => api1

/-- The common fetch-confirm-replace shape of `create`, `reload` and
`update`: assemble the request, send it, `raise_for_status`, decode the
body and `set_obj` it. Each of the three operations is definitionally an
instance of this shape. -/
def fetchSet (kwE : Except PyError Request) (method : String) (st : St) :
    Except (PyError × St) St := do
  let req ← liftE st kwE
  let (r, st) ← send method req st
  liftE st (raise_for_status r)
  let b ← liftE st r.json
  Except.ok { st with inst := set_obj b }

/-- The state a state-returning run ends in, whether it succeeded or
raised. -/
def stOfU : Except (PyError × St) St → St
  | .ok s => s
  | .error (_, s) => s

/-- The state an `exists` run ends in, whether it succeeded or raised. -/
def stOfB : Except (PyError × St) (Bool × St) → St
  | .ok (_, s) => s
  | .error (_, s) => s

/-- The state an `execute` run ends in, whether it succeeded or raised. -/
def stOfS : Except (PyError × St) (String × St) → St
  | .ok (_, s) => s
  | .error (_, s) => s

/-- The observable outcome of a `Pod.execute` run: the returned body text
and the URLs of the requests issued. -/
def execResult (x : Except (PyError × St) (String × St)) :
    Option (String × List String) :=
  match x with
  | .ok (t, s) => some (t, s.api.log.map Request.url)
  | .error _ => none

/-- The value returned by a successful `exists` run. -/
def existsResult (x : Except (PyError × St) (Bool × St)) : Option Bool :=
  match x with
  | .ok (b, _) => some b
  | .error _ => none

/-- A concrete Job document: `metadata.name` "myjob", `spec.parallelism`
2. -/
def jobObj0 : Json :=
  .obj [("metadata", .obj [("name", .str "myjob")]),
        ("spec", .obj [("parallelism", .num 2)])]

/-- A Job instance over a transport whose scripted responses answer the
existence check, the patch and the first reload, each with status 200 and
the job document itself as body. -/
def jobSt0 : St :=
  { inst := set_obj jobObj0
    api := { pending :=
      [{ status := 200, body := some jobObj0 },
       { status := 200, body := some jobObj0 },
       { status := 200, body := some jobObj0 }] } }

/-- A concrete ReplicationController document with `spec.replicas` 1. -/
def rcObj1 : Json :=
  .obj [("metadata", .obj [("name", .str "rc1")]),
        ("spec", .obj [("replicas", .num 1)])]

/-- The same document as reported once the controller has converged to 3
replicas. -/
def rcObj3 : Json :=
  .obj [("metadata", .obj [("name", .str "rc1")]),
        ("spec", .obj [("replicas", .num 3)])]

/-- The scale-convergence scenario state: a controller at 1 replica, over
a transport scripted to answer the existence check, the patch, a first
reload still reporting 1 replica, and a second reload reporting 3. -/
def rcSt0 : St :=
  { inst := set_obj rcObj1
    api := { pending :=
      [{ status := 200, body := some rcObj1 },
       { status := 200, body := some rcObj3 },
       { status := 200, body := some rcObj1 },
       { status := 200, body := some rcObj3 }] } }

/-- A concrete Pod document named "mypod", with no namespace entry. -/
def podObj0 : Json := .obj [("metadata", .obj [("name", .str "mypod")])]

/-- A Pod instance over a transport scripted with one 200 response whose
raw body text is "done". -/
def podSt0 : St :=
  { inst := set_obj podObj0
    api := { pending := [{ status := 200, text := "done" }] } }

/-- A Pod instance over a transport scripted with one 201 response. -/
def podSt201 : St :=
  { inst := set_obj podObj0
    api := { pending := [{ status := 201 }] } }

/-- The pod document after the caller assigns `metadata.name` to
"hacked". -/
def podObjRenamed : Json := .obj [("metadata", .obj [("name", .str "hacked")])]

/-- A pod document whose `metadata.namespace` is present but empty — a
falsy value. -/
def podObjEmptyNs : Json :=
  .obj [("metadata", .obj [("name", .str "p2"), ("namespace", .str "")])]

/-- The request skeleton `api_kwargs` assembles for a plain singular
operation on the concrete pod instance. -/
def reqPodGET : Request :=
  { method := "", url := "pods/mypod", base := none, version := "v1"
    ns := some (.str DEFAULT_NAMESPACE), headers := [], data := none }

/-- The request skeleton `api_kwargs` assembles for `update` on the
concrete, unmodified pod instance: the empty edit script. -/
def reqPodPATCH : Request :=
  { method := "", url := "pods/mypod", base := none, version := "v1"
    ns := some (.str DEFAULT_NAMESPACE)
    headers := [("Content-Type", "application/json-patch+json")]
    data := some "[]" }

/-- The request skeleton `api_kwargs` assembles for the concrete
`execute` call of the witness. -/
def reqPodExec : Request :=
  { method := ""
    url := "pods/mypod/exec?command=ls&stdin=true&stdout=false&stderr=true&tty=False&container=c1"
    base := none, version := "v1", ns := some (.str DEFAULT_NAMESPACE)
    headers := [], data := none }

/-- A Pod instance over a transport scripted with one 404 response. -/
def podSt404 : St :=
  { inst := set_obj podObj0
    api := { pending := [{ status := 404 }] } }

/-- A Pod instance over a transport scripted with one 200 response whose
body is the pod document. -/
def podStOk : St :=
  { inst := set_obj podObj0
    api := { pending := [{ status := 200, body := some podObj0 }] } }

/-- A Pod instance over a transport scripted with one 500 response. -/
def podSt500 : St :=
  { inst := set_obj podObj0
    api := { pending := [{ status := 500 }] } }

/-- The state `reload` leaves behind when the transport answers 500: the
GET was logged and the scripted response consumed, the instance
untouched. -/
def podSt500After : St :=
  { inst := set_obj podObj0
    api := { pending := [], log := [{ reqPodGET with method := "GET" }] } }

/-- A concrete Deployment document with `spec.replicas` 1. -/
def depObj1 : Json :=
  .obj [("metadata", .obj [("name", .str "dep1")]),
        ("spec", .obj [("replicas", .num 1)])]

/-- A Deployment instance; its transport is never consulted, since the
`scale` call fails at attribute resolution before any request. -/
def depSt0 : St := { inst := set_obj depObj1, api := { pending := [] } }

/-- Whatever the document, the namespace property never yields the empty
string: a present-and-truthy value is returned only when truthy (and the
empty string is falsy), and every fallback is the nonempty default. -/
theorem nsProperty_ne_empty (obj w : Json) (h : nsProperty obj = .ok w) :
    w ≠ Json.str "" := by
  unfold nsProperty at h
  cases hmd : getKey obj "metadata" with
  | error e => simp [hmd, bind, Except.bind] at h
  | ok md =>
    cases hg : dictGet md "namespace" with
    | error e => simp [hmd, hg, bind, Except.bind] at h
    | ok v =>
      cases v with
      | none =>
        simp [hmd, hg, bind, Except.bind] at h
        simp [← h, DEFAULT_NAMESPACE]
      | some u =>
        by_cases ht : truthy u = true
        · simp [hmd, hg, bind, Except.bind, ht] at h
          intro hw
          rw [h, hw] at ht
          simp [truthy] at ht
        · simp [hmd, hg, bind, Except.bind, ht] at h
          simp [← h, DEFAULT_NAMESPACE]

/-- C9: a namespaced resource instance whose document has no
`metadata.namespace` entry reports the namespace `"default"`, and every
request skeleton such an instance assembles carries `"default"` as its
namespace context. -/
theorem c9_namespace_default (d : Desc) (obj : Json) (mfs : List (String × Json))
    (hd : d.namespaced = true)
    (hmd : getKey obj "metadata" = .ok (.obj mfs))
    (hns : mfs.lookup "namespace" = none) :
    nsProperty obj = .ok (.str DEFAULT_NAMESPACE) ∧
      ∀ (orig : Json) (kw : KwArgs) (req : Request),
        api_kwargs d ⟨obj, orig⟩ kw = .ok req →
          req.ns = some (.str DEFAULT_NAMESPACE) := by
  have hprop : nsProperty obj = .ok (.str DEFAULT_NAMESPACE) := by
    unfold nsProperty
    simp [hmd, bind, Except.bind, dictGet, hns]
  refine ⟨hprop, ?_⟩
  intro orig kw req h
  have hna : nsAttr d obj = .ok (some (.str DEFAULT_NAMESPACE)) := by
    simp [nsAttr, hd, hprop, bind, Except.bind]
  unfold api_kwargs at h
  cases hu : urlFor d orig kw with
  | error e => simp [hu, bind, Except.bind] at h
  | ok u =>
    simp [hu, hna, bind, Except.bind] at h
    simp [← h]

/-- C10: the namespace accessor falls back to `"default"` not only when
`metadata.namespace` is absent but also when it is present with any falsy
value (such as the empty string), and consequently no request skeleton an
instance assembles ever carries the empty string as its namespace
context. -/
theorem c10_falsy_namespace (obj : Json) (mfs : List (String × Json)) (v : Json)
    (hmd : getKey obj "metadata" = .ok (.obj mfs))
    (hns : mfs.lookup "namespace" = some v)
    (hf : truthy v = false) :
    nsProperty obj = .ok (.str DEFAULT_NAMESPACE) ∧
      ∀ (d : Desc) (i : Inst) (kw : KwArgs) (req : Request),
        api_kwargs d i kw = .ok req → req.ns ≠ some (.str "") := by
  constructor
  · unfold nsProperty
    simp [hmd, bind, Except.bind, dictGet, hns, hf]
  · intro d i kw req h
    unfold api_kwargs at h
    cases hu : urlFor d i.orig kw with
    | error e => simp [hu, bind, Except.bind] at h
    | ok u =>
      cases hna : nsAttr d i.obj with
      | error e => simp [hu, hna, bind, Except.bind] at h
      | ok nso =>
        simp [hu, hna, bind, Except.bind] at h
        rw [← h]
        unfold nsAttr at hna
        by_cases hdn : d.namespaced
        · simp [hdn] at hna
          cases hw : nsProperty i.obj with
          | error e => simp [hw, bind, Except.bind] at hna
          | ok w =>
            simp [hw, bind, Except.bind] at hna
            have := nsProperty_ne_empty i.obj w hw
            simp [← hna]
            intro hc
            exact this (by rw [hc])
        · simp [hdn] at hna
          simp [← hna]

/-- C5: `delete` issues a DELETE against the singular target; a 404
response completes without error, any other non-success status raises the
fatal transport error; and in every case — success, 404 or error — the
instance's document and snapshot are exactly what they were before the
call. -/
theorem c5_delete_tolerates_404 (d : Desc) (inst : Inst) (r : Response)
    (rest : List Response) (log : List Request) (slept : Nat) (req : Request)
    (hk : api_kwargs d inst {} = .ok req) :
    (r.status = 404 →
      delete d ⟨inst, ⟨r :: rest, log, slept⟩⟩ =
        .ok ⟨inst, ⟨rest, log ++ [{ req with method := "DELETE" }], slept⟩⟩) ∧
    (r.status < 400 →
      delete d ⟨inst, ⟨r :: rest, log, slept⟩⟩ =
        .ok ⟨inst, ⟨rest, log ++ [{ req with method := "DELETE" }], slept⟩⟩) ∧
    (400 ≤ r.status → r.status ≠ 404 →
      delete d ⟨inst, ⟨r :: rest, log, slept⟩⟩ =
        .error (.httpError r.status,
          ⟨inst, ⟨rest, log ++ [{ req with method := "DELETE" }], slept⟩⟩)) := by
  refine ⟨?_, ?_, ?_⟩
  · intro h404
    simp [delete, hk, liftE, send, bind, Except.bind, h404]
  · intro hlt
    have h404 : (r.status == 404) = false := by
      simp only [beq_eq_false_iff_ne, ne_eq]
      omega
    simp [delete, hk, liftE, send, bind, Except.bind, h404, raise_for_status, hlt]
  · intro hge hne
    have h404 : (r.status == 404) = false := by
      simp only [beq_eq_false_iff_ne, ne_eq]
      exact hne
    have hnlt : ¬ r.status < 400 := by omega
    simp [delete, hk, liftE, send, bind, Except.bind, h404, raise_for_status, hnlt]

/-- C4 counterexample: on a response with status 201 — a status other
than 200 and 404 — `exists` returns true without raising anything,
where the claim requires a fatal transport error for every status other
than 200 and 404: the transport collaborator only raises on non-success
statuses, and the code then treats every remaining ok status as
existence. -/
theorem c4_status_201_returns_true :
    existsOp podDesc false podSt201 =
      .ok (true,
        ⟨set_obj podObj0, ⟨[], [{ reqPodGET with method := "GET" }], 0⟩⟩) := rfl

/-- C4 (amended): `exists` issues a GET against the singular target and
returns true on every success status (all statuses below 400, HTTP 200
among them); on 404 it returns false without raising when `ensure` is
unset and raises the `NotFound` condition when `ensure` is set; and it
raises the fatal transport error exactly for the non-success statuses
other than 404, regardless of `ensure`. -/
theorem c4_exists_statuses (d : Desc) (inst : Inst) (r : Response)
    (rest : List Response) (log : List Request) (slept : Nat) (req : Request)
    (mdObj nm : Json)
    (hk : api_kwargs d inst {} = .ok req)
    (hmd : getKey inst.obj "metadata" = .ok mdObj)
    (hnm : getKey mdObj "name" = .ok nm) :
    (∀ ensure, r.status < 400 →
      existsOp d ensure ⟨inst, ⟨r :: rest, log, slept⟩⟩ =
        .ok (true, ⟨inst, ⟨rest, log ++ [{ req with method := "GET" }], slept⟩⟩)) ∧
    (r.status = 404 →
      existsOp d false ⟨inst, ⟨r :: rest, log, slept⟩⟩ =
        .ok (false, ⟨inst, ⟨rest, log ++ [{ req with method := "GET" }], slept⟩⟩)) ∧
    (r.status = 404 →
      existsOp d true ⟨inst, ⟨r :: rest, log, slept⟩⟩ =
        .error (.objectDoesNotExist (pyStr nm ++ " does not exist."),
          ⟨inst, ⟨rest, log ++ [{ req with method := "GET" }], slept⟩⟩)) ∧
    (∀ ensure, 400 ≤ r.status → r.status ≠ 404 →
      existsOp d ensure ⟨inst, ⟨r :: rest, log, slept⟩⟩ =
        .error (.httpError r.status,
          ⟨inst, ⟨rest, log ++ [{ req with method := "GET" }], slept⟩⟩)) := by
  refine ⟨?_, ?_, ?_, ?_⟩
  · intro ensure hlt
    have hok : r.isOk = true := by simp [Response.isOk, hlt]
    by_cases h2 : r.status = 200
    · simp [existsOp, hk, liftE, send, bind, Except.bind, pure, Except.pure, h2, hok, Response.isOk, hlt]
    · have h4 : r.status ≠ 404 := by omega
      simp [existsOp, hk, liftE, send, bind, Except.bind, pure, Except.pure, h2, h4,
        raise_for_status, hlt, hok]
  · intro h404
    simp [existsOp, hk, liftE, send, bind, Except.bind, pure, Except.pure, h404, Response.isOk]
  · intro h404
    simp [existsOp, hk, liftE, send, bind, Except.bind, pure, Except.pure, h404, Response.isOk,
      hmd, hnm]
  · intro ensure hge hne
    have h2 : r.status ≠ 200 := by omega
    have hnlt : ¬ r.status < 400 := by omega
    simp [existsOp, hk, liftE, send, bind, Except.bind, pure, Except.pure, h2, hne,
      raise_for_status, hnlt]

/-- Unfolding `create` as an instance of the fetch-confirm-replace
shape. -/
theorem create_eq_fetchSet (d : Desc) (st : St) :
    create d st =
      fetchSet
        (api_kwargs d st.inst
          { collection := true, data := some (jsonDumps st.inst.obj) })
        "POST" st := rfl

/-- Unfolding `reload` as an instance of the fetch-confirm-replace
shape. -/
theorem reload_eq_fetchSet (d : Desc) (st : St) :
    reload d st = fetchSet (api_kwargs d st.inst {}) "GET" st := rfl

/-- Unfolding `update` as an instance of the fetch-confirm-replace
shape. -/
theorem update_eq_fetchSet (d : Desc) (st : St) :
    update d st =
      fetchSet
        (api_kwargs d st.inst
          { headers := [("Content-Type", "application/json-patch+json")]
            data := some (patchToString (make_patch st.inst.orig st.inst.obj)) })
        "PATCH" st := rfl

/-- The fetch-confirm-replace shape leaves the instance untouched on any
failure, and on success replaces the document and the snapshot together,
wholesale, with the decoded body of the consumed response — which must
have been a success response carrying a decodable body. -/
theorem fetchSet_spec (kwE : Except PyError Request) (method : String) (st : St) :
    (∀ e st', fetchSet kwE method st = .error (e, st') → st'.inst = st.inst) ∧
    (∀ st', fetchSet kwE method st = .ok st' →
      ∃ r rest b, st.api.pending = r :: rest ∧ r.status < 400 ∧
        r.body = some b ∧ st'.inst = set_obj b) := by
  cases hkw : kwE with
  | error e0 =>
    constructor
    · intro e st' h
      simp [fetchSet, hkw, liftE, bind, Except.bind] at h
      simp [← h.2]
    · intro st' h
      simp [fetchSet, hkw, liftE, bind, Except.bind] at h
  | ok req =>
    cases hp : st.api.pending with
    | nil =>
      constructor
      · intro e st' h
        simp [fetchSet, hkw, liftE, send, hp, bind, Except.bind] at h
        simp [← h.2]
      · intro st' h
        simp [fetchSet, hkw, liftE, send, hp, bind, Except.bind] at h
    | cons r rest =>
      by_cases hst : r.status < 400
      · cases hb : r.body with
        | none =>
          constructor
          · intro e st' h
            simp [fetchSet, hkw, liftE, send, hp, bind, Except.bind,
              raise_for_status, hst, Response.json, hb, pure, Except.pure] at h
            simp [← h.2]
          · intro st' h
            simp [fetchSet, hkw, liftE, send, hp, bind, Except.bind,
              raise_for_status, hst, Response.json, hb, pure, Except.pure] at h
        | some b =>
          constructor
          · intro e st' h
            simp [fetchSet, hkw, liftE, send, hp, bind, Except.bind,
              raise_for_status, hst, Response.json, hb, pure, Except.pure] at h
          · intro st' h
            simp [fetchSet, hkw, liftE, send, hp, bind, Except.bind,
              raise_for_status, hst, Response.json, hb, pure, Except.pure] at h
            exact ⟨r, rest, b, rfl, hst, hb, by simp [← h]⟩
      · constructor
        · intro e st' h
          simp [fetchSet, hkw, liftE, send, hp, bind, Except.bind,
            raise_for_status, hst, pure, Except.pure] at h
          simp [← h.2]
        · intro st' h
          simp [fetchSet, hkw, liftE, send, hp, bind, Except.bind,
            raise_for_status, hst, pure, Except.pure] at h

/-- C3: if `create`, `reload` or `update` fails — the transport raising on
a non-success status, or the response body failing to decode — the
document and the snapshot are left exactly as they were before the call;
they are replaced, both together and wholesale, only when the operation
succeeds on a confirmed response body. -/
theorem c3_untouched_on_failure (d : Desc) (st : St) :
    ((∀ e st', create d st = .error (e, st') → st'.inst = st.inst) ∧
     (∀ e st', reload d st = .error (e, st') → st'.inst = st.inst) ∧
     (∀ e st', update d st = .error (e, st') → st'.inst = st.inst)) ∧
    ((∀ st', create d st = .ok st' →
       ∃ r rest b, st.api.pending = r :: rest ∧ r.status < 400 ∧
         r.body = some b ∧ st'.inst = set_obj b) ∧
     (∀ st', reload d st = .ok st' →
       ∃ r rest b, st.api.pending = r :: rest ∧ r.status < 400 ∧
         r.body = some b ∧ st'.inst = set_obj b) ∧
     (∀ st', update d st = .ok st' →
       ∃ r rest b, st.api.pending = r :: rest ∧ r.status < 400 ∧
         r.body = some b ∧ st'.inst = set_obj b)) := by
  refine ⟨⟨?_, ?_, ?_⟩, ⟨?_, ?_, ?_⟩⟩
  · intro e st' h
    rw [create_eq_fetchSet] at h
    exact (fetchSet_spec _ _ _).1 e st' h
  · intro e st' h
    rw [reload_eq_fetchSet] at h
    exact (fetchSet_spec _ _ _).1 e st' h
  · intro e st' h
    rw [update_eq_fetchSet] at h
    exact (fetchSet_spec _ _ _).1 e st' h
  · intro st' h
    rw [create_eq_fetchSet] at h
    exact (fetchSet_spec _ _ _).2 st' h
  · intro st' h
    rw [reload_eq_fetchSet] at h
    exact (fetchSet_spec _ _ _).2 st' h
  · intro st' h
    rw [update_eq_fetchSet] at h
    exact (fetchSet_spec _ _ _).2 st' h

/-- The request skeleton `api_kwargs` assembles carries the caller's
headers and body verbatim, and its url is exactly what the url builder
produced from the snapshot. -/
theorem api_kwargs_fields (d : Desc) (i : Inst) (kw : KwArgs) (req : Request)
    (h : api_kwargs d i kw = .ok req) :
    req.headers = kw.headers ∧ req.data = kw.data ∧
      urlFor d i.orig kw = .ok req.url := by
  unfold api_kwargs at h
  cases hu : urlFor d i.orig kw with
  | error e => simp [hu, bind, Except.bind] at h
  | ok u =>
    cases hna : nsAttr d i.obj with
    | error e => simp [hu, hna, bind, Except.bind] at h
    | ok nso =>
      simp [hu, hna, bind, Except.bind] at h
      simp [← h]

/-- C6: `update` computes the edit script between the current snapshot
and the current document on every call and issues a PATCH carrying it
with content-type `application/json-patch+json`, with no emptiness
short-circuit — the request is issued whatever the script, the empty one
included — and on success both the document and the snapshot are replaced
with the response body. -/
theorem c6_update_always_patches (d : Desc) (inst : Inst) (r : Response)
    (rest : List Response) (log : List Request) (slept : Nat) (req : Request)
    (hk : api_kwargs d inst
        { headers := [("Content-Type", "application/json-patch+json")]
          data := some (patchToString (make_patch inst.orig inst.obj)) } = .ok req) :
    req.headers = [("Content-Type", "application/json-patch+json")] ∧
    req.data = some (patchToString (make_patch inst.orig inst.obj)) ∧
    (stOfU (update d ⟨inst, ⟨r :: rest, log, slept⟩⟩)).api =
      ⟨rest, log ++ [{ req with method := "PATCH" }], slept⟩ ∧
    (∀ b, r.status < 400 → r.body = some b →
      update d ⟨inst, ⟨r :: rest, log, slept⟩⟩ =
        .ok ⟨set_obj b, ⟨rest, log ++ [{ req with method := "PATCH" }], slept⟩⟩) := by
  obtain ⟨hh, hdta, _⟩ := api_kwargs_fields d inst _ req hk
  refine ⟨hh, hdta, ?_, ?_⟩
  · by_cases hst : r.status < 400
    · cases hb : r.body with
      | none =>
        simp [update, hk, liftE, send, bind, Except.bind, raise_for_status,
          hst, Response.json, hb, pure, Except.pure, stOfU]
      | some b =>
        simp [update, hk, liftE, send, bind, Except.bind, raise_for_status,
          hst, Response.json, hb, pure, Except.pure, stOfU]
    · simp [update, hk, liftE, send, bind, Except.bind, raise_for_status,
        hst, pure, Except.pure, stOfU]
  · intro b hst hb
    simp [update, hk, liftE, send, bind, Except.bind, raise_for_status,
      hst, Response.json, hb, pure, Except.pure]

/-- Looking up the key just assigned yields the assigned value. -/
theorem lookup_setEntry_self (fs : List (String × Json)) (k : String) (v : Json) :
    (setEntry fs k v).lookup k = some v := by
  induction fs with
  | nil => simp [setEntry, List.lookup]
  | cons kv rest ih =>
    obtain ⟨k0, v0⟩ := kv
    by_cases h : k0 = k
    · simp [setEntry, h, List.lookup]
    · have hb : (k == k0) = false := beq_eq_false_iff_ne.mpr (Ne.symm h)
      simp [setEntry, h, List.lookup, hb, ih]

/-- Assigning one key leaves the lookup of every other key unchanged. -/
theorem lookup_setEntry_ne (fs : List (String × Json)) (k : String) (v : Json)
    (k2 : String) (h : k2 ≠ k) :
    (setEntry fs k v).lookup k2 = fs.lookup k2 := by
  induction fs with
  | nil =>
    have hb : (k2 == k) = false := beq_eq_false_iff_ne.mpr h
    simp [setEntry, List.lookup, hb]
  | cons kv rest ih =>
    obtain ⟨k0, v0⟩ := kv
    by_cases h0 : k0 = k
    · subst h0
      have hb : (k2 == k0) = false := beq_eq_false_iff_ne.mpr h
      simp [setEntry, List.lookup, hb]
    · simp [setEntry, h0, List.lookup, ih]

/-- A successful subscription exposes the mapping and the binding. -/
theorem getKey_ok (j : Json) (k : String) (v : Json)
    (h : getKey j k = .ok v) :
    ∃ fs, j = .obj fs ∧ fs.lookup k = some v := by
  cases j with
  | obj fs =>
    cases hl : fs.lookup k with
    | none => simp [getKey, hl] at h
    | some w =>
      simp [getKey, hl] at h
      exact ⟨fs, rfl, by rw [hl, h]⟩
  | null => simp [getKey] at h
  | bool b => simp [getKey] at h
  | num m => simp [getKey] at h
  | str s => simp [getKey] at h
  | arr xs => simp [getKey] at h

/-- A successful item assignment exposes the mapping and the result. -/
theorem setKey_ok (j : Json) (k : String) (v w : Json)
    (h : setKey j k v = .ok w) :
    ∃ fs, j = .obj fs ∧ w = .obj (setEntry fs k v) := by
  cases j with
  | obj fs =>
    simp [setKey] at h
    exact ⟨fs, rfl, h.symm⟩
  | null => simp [setKey] at h
  | bool b => simp [setKey] at h
  | num m => simp [setKey] at h
  | str s => simp [setKey] at h
  | arr xs => simp [setKey] at h

/-- Mutating `metadata.name` in a document leaves its namespace property
unchanged: the property reads only the `namespace` binding, which the
name assignment does not touch. -/
theorem nsProperty_name_mutation (obj obj' n : Json)
    (hset : (do
        let md ← getKey obj "metadata"
        let md2 ← setKey md "name" n
        setKey obj "metadata" md2) = Except.ok obj') :
    nsProperty obj' = nsProperty obj := by
  cases hg : getKey obj "metadata" with
  | error e => rw [hg] at hset; simp [bind, Except.bind] at hset
  | ok md =>
    rw [hg] at hset
    simp only [bind, Except.bind] at hset
    cases hs1 : setKey md "name" n with
    | error e => rw [hs1] at hset; simp at hset
    | ok md2 =>
      rw [hs1] at hset
      simp at hset
      obtain ⟨ofs, hobj, hlk⟩ := getKey_ok obj "metadata" md hg
      obtain ⟨mfs, hmd, hmd2⟩ := setKey_ok md "name" n md2 hs1
      obtain ⟨ofs2, hobj2, hw⟩ := setKey_ok obj "metadata" md2 obj' hset
      rw [hobj] at hobj2
      cases hobj2
      subst hobj
      subst hmd2
      subst hw
      have h1 : getKey (Json.obj (setEntry ofs "metadata" (.obj (setEntry mfs "name" n)))) "metadata"
          = .ok (.obj (setEntry mfs "name" n)) := by
        simp [getKey, lookup_setEntry_self]
      have h2 : getKey (Json.obj ofs) "metadata" = .ok (.obj mfs) := by
        rw [hmd] at hg
        exact hg
      unfold nsProperty
      rw [h1, h2]
      have h3 : (setEntry mfs "name" n).lookup "namespace" = mfs.lookup "namespace" := by
        apply lookup_setEntry_ne
        intro hc
        simp at hc
      simp [bind, Except.bind, dictGet, h3]

/-- Mutating `metadata.name` in the document changes nothing in the
request skeleton `api_kwargs` assembles: the url is built from the
snapshot, and the namespace context does not depend on the name
binding. -/
theorem api_kwargs_name_mutation (d : Desc) (obj obj' orig n : Json)
    (hset : (do
        let md ← getKey obj "metadata"
        let md2 ← setKey md "name" n
        setKey obj "metadata" md2) = Except.ok obj') :
    ∀ kw, api_kwargs d ⟨obj', orig⟩ kw = api_kwargs d ⟨obj, orig⟩ kw := by
  intro kw
  have hns : nsAttr d obj' = nsAttr d obj := by
    unfold nsAttr
    rw [nsProperty_name_mutation obj obj' n hset]
  unfold api_kwargs
  simp [hns]

/-- The fetch-confirm-replace shape leaves behind exactly the transport
state `apiAfter` describes. -/
theorem fetchSet_api (kwE : Except PyError Request) (method : String) (st : St) :
    (stOfU (fetchSet kwE method st)).api = apiAfter kwE method st.api := by
  cases hkw : kwE with
  | error e => simp [fetchSet, hkw, liftE, bind, Except.bind, stOfU, apiAfter]
  | ok req =>
    cases hp : st.api.pending with
    | nil =>
      simp [fetchSet, hkw, liftE, send, hp, bind, Except.bind, stOfU, apiAfter]
    | cons r rest =>
      by_cases hst : r.status < 400
      · cases hb : r.body with
        | none =>
          simp [fetchSet, hkw, liftE, send, hp, bind, Except.bind,
            raise_for_status, hst, Response.json, hb, pure, Except.pure,
            stOfU, apiAfter]
        | some b =>
          simp [fetchSet, hkw, liftE, send, hp, bind, Except.bind,
            raise_for_status, hst, Response.json, hb, pure, Except.pure,
            stOfU, apiAfter]
      · simp [fetchSet, hkw, liftE, send, hp, bind, Except.bind,
          raise_for_status, hst, pure, Except.pure, stOfU, apiAfter]

/-- `exists` leaves behind exactly the transport state `apiAfter`
describes, whatever it returns or raises. -/
theorem existsOp_api (d : Desc) (ensure : Bool) (st : St) :
    (stOfB (existsOp d ensure st)).api =
      apiAfter (api_kwargs d st.inst {}) "GET" st.api := by
  cases hk : api_kwargs d st.inst {} with
  | error e => simp [existsOp, hk, liftE, bind, Except.bind, stOfB, apiAfter]
  | ok req =>
    cases hp : st.api.pending with
    | nil =>
      simp [existsOp, hk, liftE, send, hp, bind, Except.bind, stOfB, apiAfter]
    | cons r rest =>
      by_cases h20 : (r.status == 200 || r.status == 404) = true
      · by_cases hok : r.isOk = true
        · simp [existsOp, hk, liftE, send, hp, bind, Except.bind, h20, hok,
            pure, Except.pure, stOfB, apiAfter]
        · cases ensure with
          | false =>
            simp [existsOp, hk, liftE, send, hp, bind, Except.bind, h20, hok,
              pure, Except.pure, stOfB, apiAfter]
          | true =>
            cases hm : getKey st.inst.obj "metadata" with
            | error e =>
              simp [existsOp, hk, liftE, send, hp, bind, Except.bind, h20, hok,
                pure, Except.pure, hm, stOfB, apiAfter]
            | ok md =>
              cases hn : getKey md "name" with
              | error e =>
                simp [existsOp, hk, liftE, send, hp, bind, Except.bind, h20,
                  hok, pure, Except.pure, hm, hn, stOfB, apiAfter]
              | ok nm =>
                simp [existsOp, hk, liftE, send, hp, bind, Except.bind, h20,
                  hok, pure, Except.pure, hm, hn, stOfB, apiAfter]
      · by_cases hst : r.status < 400
        · by_cases hok : r.isOk = true
          · simp [existsOp, hk, liftE, send, hp, bind, Except.bind, h20,
              raise_for_status, hst, hok, pure, Except.pure, stOfB, apiAfter]
          · simp [Response.isOk, hst] at hok
        · simp [existsOp, hk, liftE, send, hp, bind, Except.bind, h20,
            raise_for_status, hst, pure, Except.pure, stOfB, apiAfter]

/-- `delete` leaves behind exactly the transport state `apiAfter`
describes, whatever it returns or raises. -/
theorem delete_api (d : Desc) (st : St) :
    (stOfU (delete d st)).api =
      apiAfter (api_kwargs d st.inst {}) "DELETE" st.api := by
  cases hk : api_kwargs d st.inst {} with
  | error e => simp [delete, hk, liftE, bind, Except.bind, stOfU, apiAfter]
  | ok req =>
    cases hp : st.api.pending with
    | nil =>
      simp [delete, hk, liftE, send, hp, bind, Except.bind, stOfU, apiAfter]
    | cons r rest =>
      by_cases h4 : (r.status == 404) = true
      · simp [delete, hk, liftE, send, hp, bind, Except.bind, h4, stOfU, apiAfter]
      · by_cases hst : r.status < 400
        · simp [delete, hk, liftE, send, hp, bind, Except.bind, h4,
            raise_for_status, hst, pure, Except.pure, stOfU, apiAfter]
        · simp [delete, hk, liftE, send, hp, bind, Except.bind, h4,
            raise_for_status, hst, pure, Except.pure, stOfU, apiAfter]

/-- `execute` leaves behind exactly the transport state `apiAfter`
describes, whatever it returns or raises. -/
theorem execute_api (d : Desc) (c : Json) (s1 s2 s3 t cn : Option Json) (st : St) :
    (stOfS (execute d c s1 s2 s3 t cn st)).api =
      apiAfter
        (api_kwargs d st.inst
          { subcommand := some "exec"
            query_params := some (execParams c s1 s2 s3 t cn) })
        "GET" st.api := by
  cases hk : api_kwargs d st.inst
      { subcommand := some "exec"
        query_params := some (execParams c s1 s2 s3 t cn) } with
  | error e => simp [execute, hk, liftE, bind, Except.bind, stOfS, apiAfter]
  | ok req =>
    cases hp : st.api.pending with
    | nil =>
      simp [execute, hk, liftE, send, hp, bind, Except.bind, stOfS, apiAfter]
    | cons r rest =>
      by_cases hst : r.status < 400
      · simp [execute, hk, liftE, send, hp, bind, Except.bind,
          raise_for_status, hst, pure, Except.pure, stOfS, apiAfter]
      · simp [execute, hk, liftE, send, hp, bind, Except.bind,
          raise_for_status, hst, pure, Except.pure, stOfS, apiAfter]

/-- The url builder reads nothing from the keyword arguments beyond the
collection flag, the subcommand and the query parameters. -/
theorem urlFor_ignores_body (d : Desc) (g : Json) (kw1 kw2 : KwArgs)
    (hc : kw1.collection = kw2.collection)
    (hs : kw1.subcommand = kw2.subcommand)
    (hq : kw1.query_params = kw2.query_params) :
    urlFor d g kw1 = urlFor d g kw2 := by
  unfold urlFor
  rw [hc, hs, hq]

/-- Two runs whose request skeletons agree on the url component — built
from the same snapshot — log requests with the same urls, whatever their
bodies and headers. -/
theorem apiAfter_url_congr (d : Desc) (o1 o2 g : Json) (kw1 kw2 : KwArgs)
    (m : String) (api : ApiState)
    (hns : nsAttr d o1 = nsAttr d o2)
    (hurl : urlFor d g kw1 = urlFor d g kw2) :
    (apiAfter (api_kwargs d ⟨o1, g⟩ kw1) m api).log.map Request.url =
      (apiAfter (api_kwargs d ⟨o2, g⟩ kw2) m api).log.map Request.url := by
  unfold api_kwargs
  simp only [hurl, hns]
  cases hu : urlFor d g kw2 with
  | error e => simp [bind, Except.bind, apiAfter]
  | ok u =>
    cases hna : nsAttr d o2 with
    | error e => simp [hu, hna, bind, Except.bind, apiAfter]
    | ok nso =>
      cases hp : api.pending with
      | nil => simp [hu, hna, hp, bind, Except.bind, apiAfter]
      | cons r rest => simp [hu, hna, hp, bind, Except.bind, apiAfter]

/-- C1: every network operation that targets the singular resource —
`exists`, `reload`, `update`, `delete`, `execute` — takes the name
component of its request url from the snapshot, never from the
caller-mutable document: assigning `document.metadata.name` after
construction changes neither the request skeleton `api_kwargs` assembles
nor (for each of the five operations) the requests the transport
receives — for `update` the issued url is unchanged (only the patch body
may differ). -/
theorem c1_target_from_snapshot (d : Desc) (obj obj' orig n : Json)
    (hset : (do
        let md ← getKey obj "metadata"
        let md2 ← setKey md "name" n
        setKey obj "metadata" md2) = Except.ok obj') :
    (∀ kw, api_kwargs d ⟨obj', orig⟩ kw = api_kwargs d ⟨obj, orig⟩ kw) ∧
    (∀ api ensure,
      (stOfB (existsOp d ensure ⟨⟨obj', orig⟩, api⟩)).api =
        (stOfB (existsOp d ensure ⟨⟨obj, orig⟩, api⟩)).api) ∧
    (∀ api,
      (stOfU (reload d ⟨⟨obj', orig⟩, api⟩)).api =
        (stOfU (reload d ⟨⟨obj, orig⟩, api⟩)).api) ∧
    (∀ api,
      (stOfU (delete d ⟨⟨obj', orig⟩, api⟩)).api =
        (stOfU (delete d ⟨⟨obj, orig⟩, api⟩)).api) ∧
    (∀ api c s1 s2 s3 t cn,
      (stOfS (execute d c s1 s2 s3 t cn ⟨⟨obj', orig⟩, api⟩)).api =
        (stOfS (execute d c s1 s2 s3 t cn ⟨⟨obj, orig⟩, api⟩)).api) ∧
    (∀ api,
      (stOfU (update d ⟨⟨obj', orig⟩, api⟩)).api.log.map Request.url =
        (stOfU (update d ⟨⟨obj, orig⟩, api⟩)).api.log.map Request.url) := by
  have hkweq := api_kwargs_name_mutation d obj obj' orig n hset
  have hns : nsAttr d obj' = nsAttr d obj := by
    unfold nsAttr
    rw [nsProperty_name_mutation obj obj' n hset]
  refine ⟨hkweq, ?_, ?_, ?_, ?_, ?_⟩
  · intro api ensure
    rw [existsOp_api, existsOp_api]
    rw [show (⟨⟨obj', orig⟩, api⟩ : St).inst = ⟨obj', orig⟩ from rfl]
    rw [show (⟨⟨obj, orig⟩, api⟩ : St).inst = ⟨obj, orig⟩ from rfl]
    rw [hkweq]
  · intro api
    rw [reload_eq_fetchSet, reload_eq_fetchSet, fetchSet_api, fetchSet_api]
    rw [show (⟨⟨obj', orig⟩, api⟩ : St).inst = ⟨obj', orig⟩ from rfl]
    rw [show (⟨⟨obj, orig⟩, api⟩ : St).inst = ⟨obj, orig⟩ from rfl]
    rw [hkweq]
  · intro api
    rw [delete_api, delete_api]
    rw [show (⟨⟨obj', orig⟩, api⟩ : St).inst = ⟨obj', orig⟩ from rfl]
    rw [show (⟨⟨obj, orig⟩, api⟩ : St).inst = ⟨obj, orig⟩ from rfl]
    rw [hkweq]
  · intro api c s1 s2 s3 t cn
    rw [execute_api, execute_api]
    rw [show (⟨⟨obj', orig⟩, api⟩ : St).inst = ⟨obj', orig⟩ from rfl]
    rw [show (⟨⟨obj, orig⟩, api⟩ : St).inst = ⟨obj, orig⟩ from rfl]
    rw [hkweq]
  · intro api
    rw [update_eq_fetchSet, update_eq_fetchSet, fetchSet_api, fetchSet_api]
    rw [show (⟨⟨obj', orig⟩, api⟩ : St).inst = ⟨obj', orig⟩ from rfl]
    rw [show (⟨⟨obj, orig⟩, api⟩ : St).inst = ⟨obj, orig⟩ from rfl]
    exact apiAfter_url_congr d obj' obj orig _ _ "PATCH" api hns
      (urlFor_ignores_body d orig _ _ rfl rfl rfl)

/-- C2: `Job.scale` on a Job that exists remotely crashes in its polling
loop. On a Job with `spec.parallelism` 2, against a transport answering
the existence check, the patch and the first reload with 200 responses,
`scale(2)` raises `AttributeError` for the name `self` — the comparison
on line 176 reads `self.self.obj` — after having issued exactly the
existence GET, the PATCH and one reload GET, instead of comparing the
reloaded `spec.parallelism` to the target and terminating. -/
theorem c2_job_scale_attribute_error :
    errOf (jobScale jobDesc (some (Json.num 2)) 5 jobSt0)
        = some (.attributeError "self") ∧
      (errStOf (jobScale jobDesc (some (Json.num 2)) 5 jobSt0)).map
          (fun s => s.api.log.map Request.method)
        = some ["GET", "PATCH", "GET"] := ⟨rfl, rfl⟩

/-- C7 counterexample: `Deployment` defines no `scale` method and
inherits none — attribute resolution over its class hierarchy fails — so
calling `scale(3)` on a Deployment constructed with `spec.replicas` 1
raises `AttributeError` at the call site, performing no reload calls at
all, rather than the two-reload convergence the claim states. -/
theorem c7_deployment_scale_missing :
    resolveAttr PyClass.deployment "scale" = none ∧
      scaleDispatch PyClass.deployment deploymentDesc (some (Json.num 3)) 5 depSt0
        = .error (.attributeError "scale", depSt0) := ⟨rfl, rfl⟩

/-- C7 (amended): the scale-convergence scenario holds for
`ReplicationController`, the replicas-scalar kind that defines `scale`:
on a controller constructed with `spec.replicas` 1, against a transport
whose successive reload responses report replicas 1 and then 3,
`scale(3)` issues the existence GET, the PATCH, and then exactly two
reload GETs — sleeping once between them — and terminates with the
instance's replicas equal to 3. -/
theorem c7_rc_scale_convergence :
    (okSt (rcScale rcDesc (some (Json.num 3)) 5 rcSt0)).map
        (fun s => (s.api.log.map Request.method, s.api.slept))
      = some (["GET", "PATCH", "GET", "GET"], 1) ∧
      (okSt (rcScale rcDesc (some (Json.num 3)) 5 rcSt0)).map
          (fun s => getReplicas s.inst.obj)
        = some (.ok (Json.num 3)) := ⟨rfl, rfl⟩

/-- C8 counterexample: a supplied boolean `tty` flag is not serialized as
a lowercase string: `execute` on the concrete pod with `tty=True` issues
a request whose query string renders the flag as `tty=True` — the raw
Python boolean passed through verbatim — not `tty=true` as the claim
states for every boolean flag. -/
theorem c8_tty_not_lowercased :
    execResult
        (execute podDesc (.str "ls") none none none (some (.bool true)) none podSt0)
      = some ("done", ["pods/mypod/exec?command=ls&tty=True"]) := rfl

/-- C8 (amended): `execute` builds its query parameters from exactly the
supplied options — the command in its string form, each supplied
`stdin`/`stdout`/`stderr` flag serialized as the lowercase string
`"true"`/`"false"`, but `tty` and the container name passed through
verbatim (a boolean `tty` thus rendering as `True`/`False`) — issues a
GET against the singular target's `exec` sub-resource with those
parameters encoded, returns the raw response body text on success, and
raises the fatal transport error on any non-success status. -/
theorem c8_execute_serialization (d : Desc) (inst : Inst) (r : Response)
    (rest : List Response) (log : List Request) (slept : Nat) (req : Request)
    (cmd cont : String) (bIn bOut bErr bTty : Bool) (mdo no : Json)
    (hk : api_kwargs d inst
        { subcommand := some "exec"
          query_params := some (execParams (.str cmd) (some (.bool bIn))
            (some (.bool bOut)) (some (.bool bErr)) (some (.bool bTty))
            (some (.str cont))) } = .ok req)
    (hmo : getKey inst.orig "metadata" = .ok mdo)
    (hno : getKey mdo "name" = .ok no) :
    execParams (.str cmd) (some (.bool bIn)) (some (.bool bOut))
        (some (.bool bErr)) (some (.bool bTty)) (some (.str cont)) =
      [("command", .str cmd),
       ("stdin", .str (cond bIn "true" "false")),
       ("stdout", .str (cond bOut "true" "false")),
       ("stderr", .str (cond bErr "true" "false")),
       ("tty", .bool bTty),
       ("container", .str cont)] ∧
    req.url = d.endpoint ++ "/" ++ pyStr no ++ "/" ++ "exec" ++ "?" ++
      urlencode (execParams (.str cmd) (some (.bool bIn)) (some (.bool bOut))
        (some (.bool bErr)) (some (.bool bTty)) (some (.str cont))) ∧
    (r.status < 400 →
      execute d (.str cmd) (some (.bool bIn)) (some (.bool bOut))
          (some (.bool bErr)) (some (.bool bTty)) (some (.str cont))
          ⟨inst, ⟨r :: rest, log, slept⟩⟩ =
        .ok (r.text,
          ⟨inst, ⟨rest, log ++ [{ req with method := "GET" }], slept⟩⟩)) ∧
    (400 ≤ r.status →
      execute d (.str cmd) (some (.bool bIn)) (some (.bool bOut))
          (some (.bool bErr)) (some (.bool bTty)) (some (.str cont))
          ⟨inst, ⟨r :: rest, log, slept⟩⟩ =
        .error (.httpError r.status,
          ⟨inst, ⟨rest, log ++ [{ req with method := "GET" }], slept⟩⟩)) := by
  refine ⟨?_, ?_, ?_, ?_⟩
  · cases bIn <;> cases bOut <;> cases bErr <;> rfl
  · obtain ⟨-, -, hu⟩ := api_kwargs_fields d inst _ req hk
    simp [urlFor, hmo, hno, bind, Except.bind, execParams] at hu
    rw [← hu]
    simp [execParams]
  · intro hst
    simp [execute, hk, liftE, send, bind, Except.bind, raise_for_status,
      hst, pure, Except.pure]
  · intro hst
    have hnlt : ¬ r.status < 400 := by omega
    simp [execute, hk, liftE, send, bind, Except.bind, raise_for_status,
      hnlt, pure, Except.pure]

/-- Witness for C1 at the concrete pod instance: renaming the document
leaves both the assembled request skeleton and the urls `update` sends
unchanged. -/
theorem c1_witness :
    api_kwargs podDesc ⟨podObjRenamed, podObj0⟩ {}
        = api_kwargs podDesc ⟨podObj0, podObj0⟩ {} ∧
      (stOfU (update podDesc ⟨⟨podObjRenamed, podObj0⟩, podStOk.api⟩)).api.log.map
          Request.url
        = (stOfU (update podDesc ⟨⟨podObj0, podObj0⟩, podStOk.api⟩)).api.log.map
          Request.url :=
  ⟨(c1_target_from_snapshot podDesc podObj0 podObjRenamed podObj0
      (Json.str "hacked") (by rfl)).1 {},
   (c1_target_from_snapshot podDesc podObj0 podObjRenamed podObj0
      (Json.str "hacked") (by rfl)).2.2.2.2.2 podStOk.api⟩

/-- Witness for C3 at the concrete pod instance: a reload the transport
answers with 500 raises and leaves the document and snapshot exactly as
they were. -/
theorem c3_witness : podSt500After.inst = podSt500.inst :=
  (c3_untouched_on_failure podDesc podSt500).1.2.1 (.httpError 500)
    podSt500After (by rfl)

/-- Witness for C4 at the concrete pod instance: a 404 existence check
with `ensure` unset returns false without raising. -/
theorem c4_witness :
    existsOp podDesc false ⟨set_obj podObj0, ⟨[{ status := 404 }], [], 0⟩⟩ =
      .ok (false,
        ⟨set_obj podObj0, ⟨[], [{ reqPodGET with method := "GET" }], 0⟩⟩) :=
  (c4_exists_statuses podDesc (set_obj podObj0) { status := 404 } [] [] 0
    reqPodGET (.obj [("name", .str "mypod")]) (.str "mypod")
    (by rfl) (by rfl) (by rfl)).2.1 rfl

/-- Witness for C5 at the concrete pod instance: deleting an already
absent object (404) completes without error and leaves the instance
untouched. -/
theorem c5_witness :
    delete podDesc ⟨set_obj podObj0, ⟨[{ status := 404 }], [], 0⟩⟩ =
      .ok ⟨set_obj podObj0, ⟨[], [{ reqPodGET with method := "DELETE" }], 0⟩⟩ :=
  (c5_delete_tolerates_404 podDesc (set_obj podObj0) { status := 404 } [] [] 0
    reqPodGET (by rfl)).1 rfl

/-- Witness for C6 at the concrete, unmodified pod instance: the edit
script is empty, the PATCH with body `[]` is issued anyway, and success
replaces the document and snapshot with the response body. -/
theorem c6_witness :
    update podDesc
        ⟨set_obj podObj0, ⟨[{ status := 200, body := some podObj0 }], [], 0⟩⟩ =
      .ok ⟨set_obj podObj0, ⟨[], [{ reqPodPATCH with method := "PATCH" }], 0⟩⟩ :=
  (c6_update_always_patches podDesc (set_obj podObj0)
    { status := 200, body := some podObj0 } [] [] 0 reqPodPATCH
    (by rfl)).2.2.2 podObj0 (by decide) rfl

/-- Witness for C8 at the concrete pod instance: stdin/stdout/stderr
serialized lowercase, `tty` rendered verbatim as `False`, container
passed through; the GET on the exec sub-resource returns the raw body
text. -/
theorem c8_witness :
    execute podDesc (.str "ls") (some (.bool true)) (some (.bool false))
        (some (.bool true)) (some (.bool false)) (some (.str "c1"))
        ⟨set_obj podObj0, ⟨[{ status := 200, text := "done" }], [], 0⟩⟩ =
      .ok ("done",
        ⟨set_obj podObj0, ⟨[], [{ reqPodExec with method := "GET" }], 0⟩⟩) :=
  (c8_execute_serialization podDesc (set_obj podObj0)
    { status := 200, text := "done" } [] [] 0 reqPodExec "ls" "c1"
    true false true false (.obj [("name", .str "mypod")]) (.str "mypod")
    (by rfl) (by rfl) (by rfl)).2.2.1 (by decide)

/-- Witness for C9 at the concrete pod instance, whose document has no
namespace entry: the property reports "default" and the assembled
request skeleton carries it. -/
theorem c9_witness :
    nsProperty podObj0 = .ok (.str DEFAULT_NAMESPACE) ∧
      reqPodGET.ns = some (.str DEFAULT_NAMESPACE) :=
  ⟨(c9_namespace_default podDesc podObj0 [("name", .str "mypod")]
      (by rfl) (by rfl) (by rfl)).1,
   (c9_namespace_default podDesc podObj0 [("name", .str "mypod")]
      (by rfl) (by rfl) (by rfl)).2 podObj0 {} reqPodGET (by rfl)⟩

/-- Witness for C10 at a concrete pod document whose namespace entry is
the empty string: the property falls back to "default", and the request
skeleton of the concrete instance does not carry an empty namespace. -/
theorem c10_witness :
    nsProperty podObjEmptyNs = .ok (.str DEFAULT_NAMESPACE) ∧
      reqPodGET.ns ≠ some (.str "") :=
  ⟨(c10_falsy_namespace podObjEmptyNs
      [("name", .str "p2"), ("namespace", .str "")] (.str "")
      (by rfl) (by rfl) (by rfl)).1,
   (c10_falsy_namespace podObjEmptyNs
      [("name", .str "p2"), ("namespace", .str "")] (.str "")
      (by rfl) (by rfl) (by rfl)).2 podDesc ⟨podObj0, podObj0⟩ {} reqPodGET
      (by rfl)⟩

end Pykube
